import Mathlib

/-!
Verification of the TD BLE parser core (`custom_components/td_ble/tdlib`):
a shallow embedding of the binary decoder, the device-type resolution, the
identity-characteristic fetch, the sensor-characteristic fetch and the
bounded-retry update loop, with theorems checking the specification's
claims against this embedding.

Machine bytes are modelled as `Nat` values below 256, Python floats as
exact rationals (`ℚ`), fallible operations as `Except`, and BLE reads as
pure functions supplied to the embedded routines.
-/

/-- Modelled from the spec: `tdlib/const.py` is absent from `src/`; it only
defines opaque characteristic UUID constants (identity partition:
manufacturer, serial, device name, firmware revision, model number; sensor
partition: temperature, pressure, max-pressure, battery).  Only the
identity and mutual distinctness of these strings matter to the parser, so
they are modelled as distinct opaque string literals. -/
def CHAR_MODEL_NUMBER : String := "uuid-model-number"

/-- Modelled from the spec: manufacturer-name identity characteristic UUID. -/
def CHAR_MANUFACTURER : String := "uuid-manufacturer"

/-- Modelled from the spec: serial-number identity characteristic UUID. -/
def CHAR_SERIAL_NUMBER : String := "uuid-serial-number"

/-- Modelled from the spec: device-name identity characteristic UUID. -/
def CHAR_DEVICE_NAME : String := "uuid-device-name"

/-- Modelled from the spec: firmware-revision identity characteristic UUID. -/
def CHAR_FIRMWARE_REV : String := "uuid-firmware-rev"

/-- Modelled from the spec: pressure sensor characteristic UUID. -/
def CHAR_PRESSURE : String := "uuid-pressure"

/-- Modelled from the spec: max-pressure sensor characteristic UUID. -/
def CHAR_MAXPRESSURE : String := "uuid-maxpressure"

/-- Modelled from the spec: temperature sensor characteristic UUID. -/
def CHAR_TEMPERATURE : String := "uuid-temperature"

/-- Modelled from the spec: battery sensor characteristic UUID. -/
def CHAR_BATTERY : String := "uuid-battery"

/-- Wire formats used by `struct.unpack` in `parser.py`: `">h"` is a signed
16-bit big-endian integer, `"b"` a signed 8-bit integer. -/
inductive Fmt where
  | int16be
  | int8
deriving DecidableEq

/-- Byte width expected by each format. -/
def Fmt.width : Fmt → Nat
  | .int16be => 2
  | .int8 => 1

/-- Signed interpretation of a 16-bit unsigned value (two's complement). -/
def sext16 (n : Nat) : Int :=
  if n < 32768 then (n : Int) else (n : Int) - 65536

/-- Signed interpretation of an 8-bit unsigned value (two's complement). -/
def sext8 (n : Nat) : Int :=
  if n < 128 then (n : Int) else (n : Int) - 256

/-- Embedding of `struct.unpack(format_type, raw_data)`: returns the tuple of
decoded values, or an error (Python `struct.error`) when the buffer width
does not match the format. -/
def structUnpack : Fmt → List Nat → Except Unit (List Int)
  | .int16be, [b0, b1] => .ok [sext16 (b0 * 256 + b1)]
  | .int8, [b] => .ok [sext8 b]
  | _, _ => .error ()

/-- Embedding of the closure returned by `_decode_attr` (parser.py:62-82):
unpack the buffer, take the single value times the scale, and null the
result when a maximum bound is configured and exceeded.  The `struct.error`
raised on a wrong-width buffer is the `Except.error` case; it is NOT caught
inside the handler. -/
def decodeAttrHandler (format_type : Fmt) (scale : ℚ) (max_value : Option ℚ)
    (raw_data : List Nat) : Except Unit (Option ℚ) :=
  match structUnpack format_type raw_data with
  | .error e => .error e
  | .ok val =>
    let res0 : Option ℚ := match val with
      | [v] => some ((v : ℚ) * scale)
      | _ => none
    let res : Option ℚ := match res0, max_value with
      | some r, some m => if r > m then none else some r
      | _, _ => res0
    .ok res

/-- Decode spec carried by each entry of the `sensor_decoders` table:
semantic name, wire format, scale, optional maximum bound. -/
structure SensorDecoder where
  name : String
  format_type : Fmt
  scale : ℚ
  max_value : Option ℚ
deriving DecidableEq

/-- Embedding of the module-level `sensor_decoders` table (parser.py:84-92).
No entry configures a maximum bound (`max_value` is left at its `None`
default in the source). -/
def sensor_decoders : List (String × SensorDecoder) :=
  [ (CHAR_PRESSURE, ⟨"pressure", .int16be, 1 / 10, none⟩),
    (CHAR_MAXPRESSURE, ⟨"maxpressure", .int16be, 1 / 10, none⟩),
    (CHAR_TEMPERATURE, ⟨"temperature", .int16be, 1 / 100, none⟩),
    (CHAR_BATTERY, ⟨"battery", .int8, 1, none⟩) ]

/-- Embedding of the `sensors_characteristics` list (parser.py:94-99). -/
def sensors_characteristics : List String :=
  [CHAR_TEMPERATURE, CHAR_BATTERY, CHAR_PRESSURE, CHAR_MAXPRESSURE]

/-- Run the decoder registered for a UUID on a raw buffer. -/
def decodeByUuid (uuid : String) (raw : List Nat) : Option (Except Unit (Option ℚ)) :=
  (sensor_decoders.lookup uuid).map
    (fun d => decodeAttrHandler d.format_type d.scale d.max_value raw)

/-- Device-type tags of the `TDDeviceType` enum (device_type.py). -/
inductive TDDeviceTypeTag where
  | UNKNOWN
  | PRESSURE_LCR03F
deriving DecidableEq

/-- Embedding of a `TDDeviceType` enum member together with its mutable
`raw_value` attribute (always a string once `from_raw_value` has run;
initially the members carry their definition values). -/
structure TDDeviceType where
  tag : TDDeviceTypeTag
  raw_value : String
deriving DecidableEq

/-- Whether `device_type.value == value` holds for an enum member: `UNKNOWN`
has the integer value `0`, which never equals a Python string, and
`PRESSURE_LCR03F` has the string value `"TDWLB-LCR03F"`. -/
def tdMemberMatches : TDDeviceTypeTag → String → Bool
  | .UNKNOWN, _ => false
  | .PRESSURE_LCR03F, s => s == "TDWLB-LCR03F"

/-- Iteration order of the enum members in `for device_type in cls`. -/
def tdMembers : List TDDeviceTypeTag :=
  [.UNKNOWN, .PRESSURE_LCR03F]

/-- Embedding of `TDDeviceType.from_raw_value` (device_type.py:20-29): return
the first member whose value equals the input, else `UNKNOWN`; in both cases
the returned member's `raw_value` is set to the input string. -/
def TDDeviceType.from_raw_value (value : String) : TDDeviceType :=
  match tdMembers.find? (fun t => tdMemberMatches t value) with
  | some t => ⟨t, value⟩
  | none => ⟨.UNKNOWN, value⟩

/-- Embedding of the `product_name` property (device_type.py:31-36). -/
def TDDeviceTypeTag.product_name : TDDeviceTypeTag → String
  | .PRESSURE_LCR03F => "Pressure LCR03F"
  | .UNKNOWN => "Unknown"

/-- Truthiness of a `TDDeviceType` value in `if device_info.model:`
(parser.py:240): Python `Enum` members define no `__bool__`, so every
member — including `UNKNOWN` — is truthy. -/
def tdTruthy (_ : TDDeviceType) : Bool := true

/-- Outcome of a single `read_gatt_char` call on a sensor characteristic:
the raw byte buffer, or a transport (`BleakError`) failure. -/
inductive ReadRes where
  | ok (data : List Nat)
  | bleakErr
deriving DecidableEq

/-- Embedding of Python `dict.update({k: v})` on the sensor map, which is
kept as an association list in insertion order. -/
def dictUpdate (m : List (String × Option ℚ)) (k : String) (v : Option ℚ) :
    List (String × Option ℚ) :=
  if m.any (fun p => p.1 == k) then
    m.map (fun p => if p.1 == k then (k, v) else p)
  else
    m ++ [(k, v)]

/-- Embedding of `_get_service_characteristics` (parser.py:248-264): walk the
characteristics discovered on the connected device (each with the outcome
its read would produce); for each one registered in both
`sensors_characteristics` and `sensor_decoders`, a failed read is skipped
(`continue`), while a successful read is decoded — the decoder call sits
OUTSIDE the `try`, so a `struct.error` from a wrong-width buffer propagates
and aborts the whole routine (the `Except.error` case). -/
def getServiceCharacteristics :
    List (String × ReadRes) → List (String × Option ℚ) →
    Except Unit (List (String × Option ℚ))
  | [], sensors => .ok sensors
  | (uuid, r) :: rest, sensors =>
    if sensors_characteristics.contains uuid &&
        (sensor_decoders.lookup uuid).isSome then
      match sensor_decoders.lookup uuid with
      | none => getServiceCharacteristics rest sensors
      | some d =>
        match r with
        | .bleakErr => getServiceCharacteristics rest sensors
        | .ok data =>
          match decodeAttrHandler d.format_type d.scale d.max_value data with
          | .error e => .error e
          | .ok res => getServiceCharacteristics rest (dictUpdate sensors d.name res)
    else
      getServiceCharacteristics rest sensors

/-- Embedding of the `TDDeviceInfo` dataclass fields used by the identity
fetch (parser.py:101-111). -/
structure DeviceInfo where
  manufacturer : String
  fw_version : String
  model : TDDeviceType
  name : String
  identifier : String
  address : String
  did_first_sync : Bool
deriving DecidableEq

/-- Identity characteristic descriptor (`Characteristic` namedtuple). -/
structure Characteristic where
  uuid : String
  name : String
deriving DecidableEq

/-- Embedding of the `device_info_characteristics` table (parser.py:55-60). -/
def device_info_characteristics : List Characteristic :=
  [ ⟨CHAR_MANUFACTURER, "manufacturer"⟩,
    ⟨CHAR_SERIAL_NUMBER, "serial_nr"⟩,
    ⟨CHAR_DEVICE_NAME, "device_name"⟩,
    ⟨CHAR_FIRMWARE_REV, "firmware_rev"⟩ ]

/-- BLE client as seen by the identity fetch: an address and a pure read
function returning the UTF-8 decoded characteristic payload or a
`BleakError`. -/
structure GattClient where
  address : String
  read_gatt_char : String → Except Unit String

/-- Embedding of `friendly_name` (parser.py:143-146). -/
def friendly_name (info : DeviceInfo) : String :=
  "TD " ++ info.model.tag.product_name

/-- Field update performed by the `if/elif` chain of
`_get_device_characteristics` (parser.py:221-234) for one successfully read
identity characteristic; the serial value is dropped when it equals the
`"Serial Number"` placeholder. -/
def applyInfoChar (info : DeviceInfo) (c : Characteristic) (data : String) :
    DeviceInfo :=
  if c.name == "manufacturer" then { info with manufacturer := data }
  else if c.name == "firmware_rev" then { info with fw_version := data }
  else if c.name == "device_name" then { info with name := data }
  else if c.name == "serial_nr" then
    if data != "Serial Number" then { info with identifier := data } else info
  else info

/-- Embedding of the `for characteristic in device_info_characteristics`
loop (parser.py:211-234).  Returns the updated info together with the list
of characteristic UUIDs whose read was attempted.  When `did_first_sync`
holds, every iteration hits the `continue` at parser.py:213-214 — the
`and characteristic.name != "firmware_rev"` condition is commented out in
the source — so nothing is read. -/
def infoCharLoop (read : String → Except Unit String) (did_first_sync : Bool) :
    List Characteristic → DeviceInfo → DeviceInfo × List String
  | [], info => (info, [])
  | c :: rest, info =>
    if did_first_sync then infoCharLoop read did_first_sync rest info
    else
      match read c.uuid with
      | .error _ =>
        let r := infoCharLoop read did_first_sync rest info
        (r.1, c.uuid :: r.2)
      | .ok data =>
        let r := infoCharLoop read did_first_sync rest (applyInfoChar info c data)
        (r.1, c.uuid :: r.2)

/-- Embedding of `_get_device_characteristics` (parser.py:192-246), returning
the updated device info and the UUIDs whose read was attempted.  Control
flow from the source: set the address; when the first sync has not happened
yet, read the model number (a `BleakError` is an early `return`) and resolve
it through `from_raw_value` on the trimmed string; run the identity loop;
fall back to the friendly name when the name is empty; finally set
`did_first_sync` under `if device_info.model:` (always truthy). -/
def getDeviceCharacteristics (client : GattClient) (info0 : DeviceInfo) :
    DeviceInfo × List String :=
  let infoA := { info0 with address := client.address }
  let did_first_sync := infoA.did_first_sync
  let step1 : Except (DeviceInfo × List String) (DeviceInfo × List String) :=
    if !did_first_sync then
      match client.read_gatt_char CHAR_MODEL_NUMBER with
      | .error _ => .error (infoA, [CHAR_MODEL_NUMBER])
      | .ok data =>
        .ok ({ infoA with model := TDDeviceType.from_raw_value data.trim },
             [CHAR_MODEL_NUMBER])
    else
      .ok (infoA, [])
  match step1 with
  | .error r => r
  | .ok (info1, att1) =>
    let r2 := infoCharLoop client.read_gatt_char did_first_sync
      device_info_characteristics info1
    let info3 := if r2.1.name = "" then { r2.1 with name := friendly_name r2.1 }
      else r2.1
    let info4 := if tdTruthy info3.model then { info3 with did_first_sync := true }
      else info3
    (info4, att1 ++ r2.2)

/-- Outcome of one call to `_update_device` as seen by the retry loop. -/
inductive AttemptResult where
  | success (snapshot : Nat)
  | disconnected
  | bleakError
  | otherError
deriving DecidableEq

/-- Result surfaced by `update_device` to its caller: a snapshot, a re-raised
connectivity error, an uncaught non-connectivity error, or the
`RuntimeError` after the loop. -/
inductive UpdOutcome where
  | ok (snapshot : Nat)
  | disconnectedError
  | bleakError
  | otherError
  | runtimeError
deriving DecidableEq

/-- Whether an attempt outcome is a connectivity-class error, i.e. one of the
two exception classes caught by the retry loop. -/
def isConnErr : AttemptResult → Bool
  | .disconnected => true
  | .bleakError => true
  | _ => false

/-- Terminal outcome produced by re-raising a connectivity-class attempt
error (junk on the other constructors, which the theorems exclude). -/
def connOutcome : AttemptResult → UpdOutcome
  | .disconnected => .disconnectedError
  | .bleakError => .bleakError
  | .success _ => .runtimeError
  | .otherError => .otherError

/-- Body of the `for attempt in range(self.max_attempts)` loop of
`update_device` (parser.py:290-306): `i` is the current attempt index,
`remaining` the number of loop iterations left, `f` gives each attempt's
outcome.  A successful attempt returns its snapshot; a connectivity-class
error is re-raised on the final attempt (`attempt == self.max_attempts - 1`)
and swallowed otherwise; any other exception is not caught and propagates
at once; an exhausted loop raises `RuntimeError`.  The second component
counts the attempts performed. -/
def updateGo (f : Nat → AttemptResult) (max_attempts : Int) :
    Nat → Nat → UpdOutcome × Nat
  | i, 0 => (.runtimeError, i)
  | i, remaining + 1 =>
    match f i with
    | .success d => (.ok d, i + 1)
    | .disconnected =>
      if (i : Int) = max_attempts - 1 then (.disconnectedError, i + 1)
      else updateGo f max_attempts (i + 1) remaining
    | .bleakError =>
      if (i : Int) = max_attempts - 1 then (.bleakError, i + 1)
      else updateGo f max_attempts (i + 1) remaining
    | .otherError => (.otherError, i + 1)

/-- Embedding of `update_device` (parser.py:290-306): run the retry loop over
`range(max_attempts)` — empty when `max_attempts ≤ 0`, since Python
`range(n)` is empty for non-positive `n`. -/
def update_device (f : Nat → AttemptResult) (max_attempts : Int) :
    UpdOutcome × Nat :=
  updateGo f max_attempts 0 max_attempts.toNat

/-- C6: for every byte buffer of the correct width, the decoded value is
exactly the signed big-endian integer interpretation of the buffer times the
decoder's scale; concretely, the pressure decoder maps bytes 0x00 0x64 to
10 and the battery decoder maps byte 0x32 to 50. -/
theorem C6_decode_exact :
    (∀ (b0 b1 : Nat) (scale : ℚ), b0 < 256 → b1 < 256 →
      decodeAttrHandler .int16be scale none [b0, b1] =
        .ok (some ((sext16 (b0 * 256 + b1) : ℚ) * scale))) ∧
    (∀ (b : Nat) (scale : ℚ), b < 256 →
      decodeAttrHandler .int8 scale none [b] =
        .ok (some ((sext8 b : ℚ) * scale))) ∧
    decodeByUuid CHAR_PRESSURE [0x00, 0x64] = some (.ok (some 10)) ∧
    decodeByUuid CHAR_BATTERY [0x32] = some (.ok (some 50)) := by
  refine ⟨fun b0 b1 scale _ _ => rfl, fun b scale _ => rfl, ?_, ?_⟩
  · have h : sensor_decoders.lookup CHAR_PRESSURE =
        some ⟨"pressure", .int16be, 1 / 10, none⟩ := rfl
    norm_num [decodeByUuid, h, decodeAttrHandler, structUnpack, sext16]
  · have h : sensor_decoders.lookup CHAR_BATTERY =
        some ⟨"battery", .int8, 1, none⟩ := rfl
    norm_num [decodeByUuid, h, decodeAttrHandler, structUnpack, sext8]

/-- C6 witness: instantiation of the universally quantified conjuncts at
concrete bytes. -/
theorem C6_decode_exact_witness :
    decodeAttrHandler .int16be (1 / 10) none [0, 100] =
      .ok (some ((sext16 (0 * 256 + 100) : ℚ) * (1 / 10))) ∧
    decodeAttrHandler .int8 1 none [50] =
      .ok (some ((sext8 50 : ℚ) * 1)) :=
  ⟨C6_decode_exact.1 0 100 (1 / 10) (by decide) (by decide),
   C6_decode_exact.2.1 50 1 (by decide)⟩

/-- C8: resolving the raw string "TDWLB-LCR03F" yields the pressure-sensor
device type with product name "Pressure LCR03F", while any unrecognized
string resolves to the unknown type whose raw_value records the original
string − in particular "XYZ". -/
theorem C8_model_resolution :
    TDDeviceType.from_raw_value "TDWLB-LCR03F" =
      ⟨.PRESSURE_LCR03F, "TDWLB-LCR03F"⟩ ∧
    (TDDeviceType.from_raw_value "TDWLB-LCR03F").tag.product_name =
      "Pressure LCR03F" ∧
    (∀ s, s ≠ "TDWLB-LCR03F" → TDDeviceType.from_raw_value s = ⟨.UNKNOWN, s⟩) ∧
    TDDeviceType.from_raw_value "XYZ" = ⟨.UNKNOWN, "XYZ"⟩ ∧
    (TDDeviceType.from_raw_value "XYZ").raw_value = "XYZ" ∧
    (TDDeviceType.from_raw_value "XYZ").tag.product_name = "Unknown" := by
  refine ⟨by decide, by decide, ?_, by decide, by decide, by decide⟩
  intro s hs
  have hb : (s == "TDWLB-LCR03F") = false := beq_eq_false_iff_ne.mpr hs
  simp [TDDeviceType.from_raw_value, tdMembers, tdMemberMatches, List.find?, hb]

/-- C8 witness: the unrecognized-string conjunct applied to "ABC". -/
theorem C8_model_resolution_witness :
    TDDeviceType.from_raw_value "ABC" = ⟨.UNKNOWN, "ABC"⟩ :=
  C8_model_resolution.2.2.1 "ABC" (by decide)

/-- C5: whenever a maximum bound is configured and the scaled value exceeds
it, the decoder reports null, never the out-of-range number; with no
maximum configured the scaled value passes through unchanged — and the
shipped pressure and maxpressure decoders configure no maximum. -/
theorem C5_max_bound :
    (∀ (fmt : Fmt) (scale m : ℚ) (raw : List Nat) (v : Int),
      structUnpack fmt raw = .ok [v] → (v : ℚ) * scale > m →
      decodeAttrHandler fmt scale (some m) raw = .ok none) ∧
    (∀ (fmt : Fmt) (scale : ℚ) (raw : List Nat) (v : Int),
      structUnpack fmt raw = .ok [v] →
      decodeAttrHandler fmt scale none raw = .ok (some ((v : ℚ) * scale))) ∧
    sensor_decoders.lookup CHAR_PRESSURE =
      some ⟨"pressure", .int16be, 1 / 10, none⟩ ∧
    sensor_decoders.lookup CHAR_MAXPRESSURE =
      some ⟨"maxpressure", .int16be, 1 / 10, none⟩ := by
  refine ⟨?_, ?_, rfl, rfl⟩
  · intro fmt scale m raw v h hgt
    simp [decodeAttrHandler, h, hgt]
  · intro fmt scale raw v h
    simp [decodeAttrHandler, h]

/-- C5 witness: a configured bound of 10 nulls the out-of-range value 50,
and the same buffer passes through unchanged with no bound configured. -/
theorem C5_max_bound_witness :
    decodeAttrHandler .int8 1 (some 10) [50] = .ok none ∧
    decodeAttrHandler .int8 1 none [50] = .ok (some ((50 : ℚ) * 1)) :=
  ⟨C5_max_bound.1 .int8 1 10 [50] 50 rfl (by norm_num),
   C5_max_bound.2.1 .int8 1 [50] 50 rfl⟩

/-- C10: with a zero or negative max_attempts budget, update_device performs
no attempt at all (the attempt counter stays 0) and surfaces the
RuntimeError of the exhausted-loop terminal path. -/
theorem C10_nonpositive_budget (f : Nat → AttemptResult) (m : Int)
    (h : m ≤ 0) :
    update_device f m = (.runtimeError, 0) := by
  unfold update_device
  rw [Int.toNat_of_nonpos h]
  rfl

/-- C10 witness: a budget of -1 (and a would-be successful attempt) still
ends in RuntimeError with zero attempts. -/
theorem C10_nonpositive_budget_witness :
    update_device (fun _ => .success 0) (-1) = (.runtimeError, 0) :=
  C10_nonpositive_budget (fun _ => .success 0) (-1) (by decide)

/-- Helper: `struct.unpack` fails exactly when the buffer width differs from
the width demanded by the format. -/
theorem structUnpack_error_of_wrong_width :
    ∀ (fmt : Fmt) (data : List Nat), data.length ≠ fmt.width →
      structUnpack fmt data = .error ()
  | .int16be, [], _ => rfl
  | .int16be, [_], _ => rfl
  | .int16be, [_, _], hw => absurd rfl hw
  | .int16be, _ :: _ :: _ :: _, _ => rfl
  | .int8, [], _ => rfl
  | .int8, [_], hw => absurd rfl hw
  | .int8, _ :: _ :: _, _ => rfl

/-- Helper: a failed unpack makes the whole decode handler fail — the
`struct.error` is not caught inside the handler. -/
theorem decodeAttrHandler_error (fmt : Fmt) (scale : ℚ) (mv : Option ℚ)
    (data : List Nat) (h : structUnpack fmt data = .error ()) :
    decodeAttrHandler fmt scale mv data = .error () := by
  simp [decodeAttrHandler, h]

/-- C3 counterexample: a 1-byte buffer on the (16-bit) pressure
characteristic makes the whole sensor fetch return the format error — the
battery characteristic that follows is never processed, even though on its
own it decodes fine.  This refutes the claim that only the single
characteristic's update is abandoned. -/
theorem C3_counterexample :
    getServiceCharacteristics
      [(CHAR_PRESSURE, .ok [0x64]), (CHAR_BATTERY, .ok [0x32])] [] =
        .error () ∧
    getServiceCharacteristics [(CHAR_BATTERY, .ok [0x32])] [] =
      .ok [("battery", some ((50 : ℚ) * 1))] := by
  constructor
  · rfl
  · rfl

/-- C3 amended: a sensor read returning a buffer whose width does not match
the decoder's format raises an uncaught format error that aborts the entire
sensor fetch — the remaining characteristics are not processed and the
routine returns the error instead of a sensor map. -/
theorem C3_wrong_width_aborts (uuid : String) (d : SensorDecoder)
    (data : List Nat) (rest : List (String × ReadRes))
    (sensors : List (String × Option ℚ))
    (hl : sensor_decoders.lookup uuid = some d)
    (hc : sensors_characteristics.contains uuid = true)
    (hw : data.length ≠ d.format_type.width) :
    getServiceCharacteristics ((uuid, .ok data) :: rest) sensors =
      .error () := by
  have hu := structUnpack_error_of_wrong_width d.format_type data hw
  have hd := decodeAttrHandler_error d.format_type d.scale d.max_value data hu
  rw [getServiceCharacteristics, hl, hc]
  simp only [Option.isSome_some, Bool.and_self, if_true]
  rw [hd]

/-- C3 witness: the amended theorem applied to a 3-byte pressure buffer. -/
theorem C3_wrong_width_aborts_witness :
    getServiceCharacteristics [(CHAR_PRESSURE, .ok [1, 2, 3])] [] =
      .error () :=
  C3_wrong_width_aborts CHAR_PRESSURE ⟨"pressure", .int16be, 1 / 10, none⟩
    [1, 2, 3] [] [] rfl rfl (by decide)

/-- Helper: membership in a `dictUpdate` result comes from the original map
or carries the updated key. -/
theorem mem_dictUpdate (m : List (String × Option ℚ)) (k : String)
    (v : Option ℚ) (p : String × Option ℚ) (hp : p ∈ dictUpdate m k v) :
    p ∈ m ∨ p.1 = k := by
  unfold dictUpdate at hp
  split at hp
  · rcases List.mem_map.mp hp with ⟨q, hq, hfq⟩
    by_cases h : (q.1 == k) = true
    · rw [if_pos h] at hfq
      right
      rw [← hfq]
    · rw [if_neg h] at hfq
      left
      rw [← hfq]
      exact hq
  · rcases List.mem_append.mp hp with h | h
    · exact Or.inl h
    · right
      rw [List.mem_singleton.mp h]

/-- Helper: every entry of a successfully produced sensor map either was in
the initial map or is named by a decoder registered for one of the walked
characteristics. -/
theorem getServiceCharacteristics_keys :
    ∀ (chars : List (String × ReadRes)) (init s : List (String × Option ℚ)),
      getServiceCharacteristics chars init = .ok s →
      ∀ p ∈ s, p ∈ init ∨ ∃ q ∈ chars, ∃ d,
        sensor_decoders.lookup q.1 = some d ∧ d.name = p.1 := by
  intro chars
  induction chars with
  | nil =>
    intro init s h p hp
    rw [getServiceCharacteristics] at h
    cases h
    exact Or.inl hp
  | cons c rest ih =>
    intro init s h p hp
    obtain ⟨uuid, r⟩ := c
    rw [getServiceCharacteristics] at h
    by_cases hcond : (sensors_characteristics.contains uuid &&
        (sensor_decoders.lookup uuid).isSome) = true
    · rw [if_pos hcond] at h
      cases hlk : sensor_decoders.lookup uuid with
      | none =>
        simp only [hlk] at h
        rcases ih init s h p hp with h1 | ⟨q, hq, d2, hd2, hn⟩
        · exact Or.inl h1
        · exact Or.inr ⟨q, List.mem_cons_of_mem _ hq, d2, hd2, hn⟩
      | some d =>
        cases r with
        | bleakErr =>
          simp only [hlk] at h
          rcases ih init s h p hp with h1 | ⟨q, hq, d2, hd2, hn⟩
          · exact Or.inl h1
          · exact Or.inr ⟨q, List.mem_cons_of_mem _ hq, d2, hd2, hn⟩
        | ok data =>
          cases hdec : decodeAttrHandler d.format_type d.scale d.max_value data with
          | error e =>
            simp only [hlk, hdec] at h
            exact Except.noConfusion h
          | ok res =>
            simp only [hlk, hdec] at h
            rcases ih _ s h p hp with h1 | ⟨q, hq, d2, hd2, hn⟩
            · rcases mem_dictUpdate init d.name res p h1 with h2 | h2
              · exact Or.inl h2
              · exact Or.inr ⟨(uuid, .ok data), List.mem_cons_self _ _,
                  d, hlk, h2.symm⟩
            · exact Or.inr ⟨q, List.mem_cons_of_mem _ hq, d2, hd2, hn⟩
    · rw [if_neg hcond] at h
      rcases ih init s h p hp with h1 | ⟨q, hq, d2, hd2, hn⟩
      · exact Or.inl h1
      · exact Or.inr ⟨q, List.mem_cons_of_mem _ hq, d2, hd2, hn⟩

/-- C4 counterexample: the pressure characteristic is attempted (its read
succeeds) but its 3-byte buffer fails to decode, and the sensor fetch
returns an error — no sensor map with an explicit null under the
"pressure" key is produced. -/
theorem C4_counterexample :
    getServiceCharacteristics [(CHAR_PRESSURE, .ok [0, 0, 0])] [] =
      .error () ∧
    ∀ s, getServiceCharacteristics [(CHAR_PRESSURE, .ok [0, 0, 0])] [] ≠
      .ok s := by
  refine ⟨rfl, fun s h => ?_⟩
  rw [show getServiceCharacteristics [(CHAR_PRESSURE, .ok [0, 0, 0])] [] =
    .error () from rfl] at h
  cases h

/-- C4 amended: a successful sensor fetch produces a map whose every key is
named by a decoder registered for a characteristic present on the device; a
characteristic whose read fails is skipped, leaving its key absent; and a
characteristic whose buffer has the wrong width aborts the whole fetch with
a format error instead of recording a null. -/
theorem C4_sensor_map_keys :
    (∀ (chars : List (String × ReadRes)) (s : List (String × Option ℚ)),
      getServiceCharacteristics chars [] = .ok s →
      ∀ p ∈ s, ∃ q ∈ chars, ∃ d,
        sensor_decoders.lookup q.1 = some d ∧ d.name = p.1) ∧
    (∀ (uuid : String) (rest : List (String × ReadRes))
        (sensors : List (String × Option ℚ)),
      getServiceCharacteristics ((uuid, .bleakErr) :: rest) sensors =
        getServiceCharacteristics rest sensors) ∧
    (∀ (uuid : String) (d : SensorDecoder) (data : List Nat)
        (rest : List (String × ReadRes))
        (sensors : List (String × Option ℚ)),
      sensor_decoders.lookup uuid = some d →
      sensors_characteristics.contains uuid = true →
      data.length ≠ d.format_type.width →
      getServiceCharacteristics ((uuid, .ok data) :: rest) sensors =
        .error ()) := by
  refine ⟨?_, ?_, ?_⟩
  · intro chars s h p hp
    rcases getServiceCharacteristics_keys chars [] s h p hp with h1 | h1
    · cases h1
    · exact h1
  · intro uuid rest sensors
    rw [getServiceCharacteristics]
    split
    · split
      · rfl
      · rfl
    · rfl
  · intro uuid d data rest sensors hl hc hw
    have hu := structUnpack_error_of_wrong_width d.format_type data hw
    have hd := decodeAttrHandler_error d.format_type d.scale d.max_value data hu
    rw [getServiceCharacteristics, hl, hc]
    simp only [Option.isSome_some, Bool.and_self, if_true]
    rw [hd]

/-- C4 witness: the amended theorem applied to a concrete fetch of a
temperature reading plus a failed battery read: the produced key is the
temperature decoder's name, the failed read leaves no battery key, and a
wrong-width maxpressure buffer aborts a fetch. -/
theorem C4_sensor_map_keys_witness :
    (∃ q ∈ [((CHAR_TEMPERATURE : String), ReadRes.ok [0, 10])], ∃ d,
      sensor_decoders.lookup q.1 = some d ∧ d.name = "temperature") ∧
    getServiceCharacteristics
      [(CHAR_BATTERY, .bleakErr), (CHAR_TEMPERATURE, .ok [0, 10])] [] =
      getServiceCharacteristics [(CHAR_TEMPERATURE, .ok [0, 10])] [] ∧
    getServiceCharacteristics [(CHAR_MAXPRESSURE, .ok [7])] [] =
      .error () := by
  refine ⟨?_, ?_, ?_⟩
  · exact C4_sensor_map_keys.1 [(CHAR_TEMPERATURE, .ok [0, 10])]
      [("temperature", some ((10 : ℚ) * (1 / 100)))] rfl
      ("temperature", some ((10 : ℚ) * (1 / 100))) (by simp)
  · exact C4_sensor_map_keys.2.1 CHAR_BATTERY
      [(CHAR_TEMPERATURE, .ok [0, 10])] []
  · exact C4_sensor_map_keys.2.2 CHAR_MAXPRESSURE
      ⟨"maxpressure", .int16be, 1 / 10, none⟩ [7]
      [] [] rfl rfl (by decide)

/-- Helper: the identity-field update never touches the model field. -/
theorem applyInfoChar_model (info : DeviceInfo) (c : Characteristic)
    (data : String) : (applyInfoChar info c data).model = info.model := by
  unfold applyInfoChar
  split_ifs <;> rfl

/-- Helper: the identity-field update never touches the first-sync flag. -/
theorem applyInfoChar_did_first_sync (info : DeviceInfo) (c : Characteristic)
    (data : String) :
    (applyInfoChar info c data).did_first_sync = info.did_first_sync := by
  unfold applyInfoChar
  split_ifs <;> rfl

/-- Helper: the identity-characteristic loop never changes the model field. -/
theorem infoCharLoop_model (read : String → Except Unit String) (dfs : Bool) :
    ∀ (cs : List Characteristic) (info : DeviceInfo),
      (infoCharLoop read dfs cs info).1.model = info.model := by
  intro cs
  induction cs with
  | nil => intro info; rfl
  | cons c rest ih =>
    intro info
    rw [infoCharLoop]
    split
    · exact ih info
    · cases h : read c.uuid with
      | error e => simpa [h] using ih info
      | ok data =>
        simp only [h]
        exact (ih (applyInfoChar info c data)).trans
          (applyInfoChar_model info c data)

/-- Helper: the identifier produced by the identity loop over the concrete
characteristic table is governed solely by the serial-number read: a failed
read or the "Serial Number" placeholder leaves it unchanged, any other
string replaces it. -/
theorem infoCharLoop_identifier (read : String → Except Unit String)
    (info : DeviceInfo) :
    (infoCharLoop read false device_info_characteristics info).1.identifier =
      match read CHAR_SERIAL_NUMBER with
      | .error _ => info.identifier
      | .ok s => if s != "Serial Number" then s else info.identifier := by
  rcases h1 : read CHAR_MANUFACTURER with e1 | s1 <;>
  rcases h2 : read CHAR_SERIAL_NUMBER with e2 | s2 <;>
  rcases h3 : read CHAR_DEVICE_NAME with e3 | s3 <;>
  rcases h4 : read CHAR_FIRMWARE_REV with e4 | s4 <;>
    simp [infoCharLoop, device_info_characteristics, applyInfoChar,
      h1, h2, h3, h4] <;>
    split <;> rfl

/-- C9: a serial-number read that decodes to the exact placeholder string
"Serial Number" leaves the identifier unchanged, while any other decoded
serial string is stored as the identifier. -/
theorem C9_serial_placeholder (client : GattClient) (info0 : DeviceInfo)
    (sm : String) (h0 : info0.did_first_sync = false)
    (hm : client.read_gatt_char CHAR_MODEL_NUMBER = .ok sm) :
    ∀ s, client.read_gatt_char CHAR_SERIAL_NUMBER = .ok s →
      (getDeviceCharacteristics client info0).1.identifier =
        if s = "Serial Number" then info0.identifier else s := by
  intro s hs
  unfold getDeviceCharacteristics
  simp [h0, hm, tdTruthy]
  split
  · rw [infoCharLoop_identifier, hs]
    by_cases hsn : s = "Serial Number" <;> simp [hsn]
  · rw [infoCharLoop_identifier, hs]
    by_cases hsn : s = "Serial Number" <;> simp [hsn]

/-- C9 witness: a concrete client whose serial read returns the placeholder
leaves the cached identifier in place. -/
theorem C9_serial_placeholder_witness :
    (getDeviceCharacteristics
        ⟨"AD", fun u =>
          if u = CHAR_MODEL_NUMBER then .ok "M"
          else if u = CHAR_SERIAL_NUMBER then .ok "Serial Number"
          else .error ()⟩
        ⟨"", "", ⟨.UNKNOWN, "0"⟩, "", "OLD-ID", "", false⟩).1.identifier =
      if ("Serial Number" : String) = "Serial Number" then
        (⟨"", "", ⟨.UNKNOWN, "0"⟩, "", "OLD-ID", "", false⟩ :
          DeviceInfo).identifier
      else "Serial Number" :=
  C9_serial_placeholder
    ⟨"AD", fun u =>
      if u = CHAR_MODEL_NUMBER then .ok "M"
      else if u = CHAR_SERIAL_NUMBER then .ok "Serial Number"
      else .error ()⟩
    ⟨"", "", ⟨.UNKNOWN, "0"⟩, "", "OLD-ID", "", false⟩
    "M" rfl (by simp) "Serial Number" (by simp [CHAR_SERIAL_NUMBER, CHAR_MODEL_NUMBER])

/-- C7: starting from did_first_sync = false, the flag becomes true exactly
when the model-number read succeeded in that pass (the resolved model —
matched or explicitly unknown — is then stored); if the model read fails,
the early return leaves the flag false so the next cycle repeats the full
identity fetch. -/
theorem C7_first_sync_transition (client : GattClient) (info0 : DeviceInfo)
    (h0 : info0.did_first_sync = false) :
    (∀ e, client.read_gatt_char CHAR_MODEL_NUMBER = .error e →
      (getDeviceCharacteristics client info0).1.did_first_sync = false) ∧
    (∀ s, client.read_gatt_char CHAR_MODEL_NUMBER = .ok s →
      (getDeviceCharacteristics client info0).1.did_first_sync = true ∧
      (getDeviceCharacteristics client info0).1.model =
        TDDeviceType.from_raw_value s.trim) := by
  constructor
  · intro e he
    unfold getDeviceCharacteristics
    simp [h0, he]
  · intro s hs
    unfold getDeviceCharacteristics
    simp [h0, hs, tdTruthy, infoCharLoop_model]
    split
    · rfl
    · simp [infoCharLoop_model]

/-- C7 witness: a failed model read keeps the flag false, a successful one
sets it and stores the resolved model. -/
theorem C7_first_sync_transition_witness :
    (getDeviceCharacteristics
        ⟨"AE", fun _ => .error ()⟩
        ⟨"", "", ⟨.UNKNOWN, "0"⟩, "", "", "", false⟩).1.did_first_sync =
      false ∧
    (getDeviceCharacteristics
        ⟨"AE", fun _ => .ok "XYZ"⟩
        ⟨"", "", ⟨.UNKNOWN, "0"⟩, "", "", "", false⟩).1.did_first_sync =
      true :=
  ⟨(C7_first_sync_transition ⟨"AE", fun _ => .error ()⟩
      ⟨"", "", ⟨.UNKNOWN, "0"⟩, "", "", "", false⟩ rfl).1 () rfl,
   ((C7_first_sync_transition ⟨"AE", fun _ => .ok "XYZ"⟩
      ⟨"", "", ⟨.UNKNOWN, "0"⟩, "", "", "", false⟩ rfl).2 "XYZ" rfl).1⟩

/-- C1: evaluation of the identity fetch at the inputs where the claim
fails.  With did_first_sync = true, NO identity characteristic is read —
not even firmware revision (the `and characteristic.name != "firmware_rev"`
guard at parser.py:213 is commented out), so fw_version keeps its cached
value even though the device would report a new one; with
did_first_sync = false every identity characteristic, model number
included, is attempted. -/
theorem C1_synced_fetch_reads_nothing :
    (getDeviceCharacteristics
        ⟨"AA:BB", fun _ => .ok "NEW"⟩
        ⟨"TD", "1.0.0", ⟨.PRESSURE_LCR03F, "TDWLB-LCR03F"⟩, "Sensor", "SER1",
          "AA:BB", true⟩).2 = [] ∧
    (getDeviceCharacteristics
        ⟨"AA:BB", fun _ => .ok "NEW"⟩
        ⟨"TD", "1.0.0", ⟨.PRESSURE_LCR03F, "TDWLB-LCR03F"⟩, "Sensor", "SER1",
          "AA:BB", true⟩).1.fw_version = "1.0.0" ∧
    (getDeviceCharacteristics
        ⟨"AA:BB", fun _ => .ok "NEW"⟩
        ⟨"TD", "1.0.0", ⟨.PRESSURE_LCR03F, "TDWLB-LCR03F"⟩, "Sensor", "SER1",
          "AA:BB", false⟩).2 =
      [CHAR_MODEL_NUMBER, CHAR_MANUFACTURER, CHAR_SERIAL_NUMBER,
        CHAR_DEVICE_NAME, CHAR_FIRMWARE_REV] := by
  refine ⟨rfl, rfl, rfl⟩

/-- Helper: when every attempt up to the budget fails with a
connectivity-class error, the retry loop consumes every remaining attempt
and re-raises the error of the final one. -/
theorem updateGo_conn_exhaust (f : Nat → AttemptResult) (m : Int)
    (hconn : ∀ j, j < m.toNat → isConnErr (f j) = true) :
    ∀ (rem i : Nat), i + rem = m.toNat → 0 < rem →
      updateGo f m i rem = (connOutcome (f (m.toNat - 1)), m.toNat) := by
  intro rem
  induction rem with
  | zero =>
    intro i _ h0
    exact absurd h0 (by omega)
  | succ r ih =>
    intro i hsum _
    have hi : i < m.toNat := by omega
    have hci := hconn i hi
    cases hfi : f i with
    | success d => rw [hfi] at hci; simp [isConnErr] at hci
    | otherError => rw [hfi] at hci; simp [isConnErr] at hci
    | disconnected =>
      cases r with
      | zero =>
        simp only [updateGo, hfi]
        rw [if_pos (by omega : (i : Int) = m - 1)]
        rw [show m.toNat - 1 = i by omega, hfi]
        simp only [connOutcome, Prod.mk.injEq]
        exact ⟨trivial, by omega⟩
      | succ r2 =>
        simp only [updateGo, hfi]
        rw [if_neg (by omega : ¬((i : Int) = m - 1))]
        exact ih (i + 1) (by omega) (by omega)
    | bleakError =>
      cases r with
      | zero =>
        simp only [updateGo, hfi]
        rw [if_pos (by omega : (i : Int) = m - 1)]
        rw [show m.toNat - 1 = i by omega, hfi]
        simp only [connOutcome, Prod.mk.injEq]
        exact ⟨trivial, by omega⟩
      | succ r2 =>
        simp only [updateGo, hfi]
        rw [if_neg (by omega : ¬((i : Int) = m - 1))]
        exact ih (i + 1) (by omega) (by omega)

/-- Helper: an attempt whose outcome is a non-connectivity error is not
caught by the retry loop — the loop surfaces it at once, after exactly that
attempt, whatever retry budget is left. -/
theorem updateGo_other_immediate (f : Nat → AttemptResult) (m : Int)
    (k : Nat) (hk : k < m.toNat) (hfk : f k = .otherError)
    (hconn : ∀ j, j < k → isConnErr (f j) = true) :
    ∀ (rem i : Nat), i + rem = m.toNat → i ≤ k →
      updateGo f m i rem = (.otherError, k + 1) := by
  intro rem
  induction rem with
  | zero =>
    intro i hsum hik
    exact absurd hk (by omega)
  | succ r ih =>
    intro i hsum hik
    by_cases hi : i = k
    · subst hi
      simp [updateGo, hfk]
    · have hci := hconn i (by omega)
      cases hfi : f i with
      | success d => rw [hfi] at hci; simp [isConnErr] at hci
      | otherError => rw [hfi] at hci; simp [isConnErr] at hci
      | disconnected =>
        simp only [updateGo, hfi]
        rw [if_neg (by omega : ¬((i : Int) = m - 1))]
        exact ih (i + 1) (by omega) (by omega)
      | bleakError =>
        simp only [updateGo, hfi]
        rw [if_neg (by omega : ¬((i : Int) = m - 1))]
        exact ih (i + 1) (by omega) (by omega)

/-- C2: when every attempt fails with a connectivity-class error
(DisconnectedError or BleakError), update_device consumes the whole
max_attempts budget and re-raises the last such error; a non-connectivity
error is never caught and propagates immediately on the attempt where it
occurs. -/
theorem C2_retry_policy (f : Nat → AttemptResult) (m : Int) :
    ((∀ i, i < m.toNat → isConnErr (f i) = true) → 0 < m →
      update_device f m = (connOutcome (f (m.toNat - 1)), m.toNat)) ∧
    (∀ k, k < m.toNat → f k = .otherError →
      (∀ i, i < k → isConnErr (f i) = true) →
      update_device f m = (.otherError, k + 1)) := by
  constructor
  · intro hconn hm
    unfold update_device
    exact updateGo_conn_exhaust f m hconn m.toNat 0 (by omega) (by omega)
  · intro k hk hfk hconn
    unfold update_device
    exact updateGo_other_immediate f m k hk hfk hconn m.toNat 0 (by omega)
      (by omega)

/-- C2 witness: with budget 2 and attempts failing disconnected then bleak,
both attempts run and the final bleak error is surfaced; with budget 3 and
a non-connectivity error on the second attempt, it propagates at once after
two attempts, leaving the third unused. -/
theorem C2_retry_policy_witness :
    update_device (fun i => if i = 0 then .disconnected else .bleakError) 2 =
      (.bleakError, 2) ∧
    update_device (fun i => if i = 0 then .disconnected else .otherError) 3 =
      (.otherError, 2) :=
  ⟨((C2_retry_policy (fun i => if i = 0 then .disconnected else .bleakError)
      2).1 (by decide) (by decide)).trans (by decide),
   (C2_retry_policy (fun i => if i = 0 then .disconnected else .otherError)
      3).2 1 (by decide) (by decide) (by decide)⟩
